import Mathlib

/-!
# Verification of the AltFlex risk-scoring core

Shallow embedding of the risk-scoring components of the AltFlex repository
(`src/models/behavioral_analyzer.py`, `src/models/anomaly_detector.py`,
`src/utils/address_validator.py`, `src/app/main.py`, and the
`ExploitDetector` described by the design spec), together with proofs
about the embedded definitions.

Modelling conventions:
* Python `str` is Lean `String`; Python `str.lower()` is modelled by
  `pyLower`, character-wise ASCII lowering (all address data handled by
  the code is ASCII).
* Python floats are modelled as exact rationals `ℚ`.  The source applies
  `round(x, 2)` / `round(x, 3)` to some returned fields purely as display
  rounding; the embedding keeps the exact values, and all stated
  identities are about the exact values.
* A pandas `DataFrame` of transactions is a `List` of transaction
  records; boolean-mask filtering is `List.filter`, `value_counts` is
  expressed through `List.dedup` and `List.count`, and
  `groupby(...).size().max()` is a fold over bucket counts.
* Unix-second timestamps are `Nat`; `pd.to_datetime(ts, unit='s')`
  comparisons against `reference_time - timedelta(...)` are the integer
  comparisons `ts + window ≥ reference_time`.
* Calls that read the wall clock (`datetime.now()`) take the clock value
  as an explicit `now`/`reference_time` argument.
-/

/-- Character-wise lowering; models Python `str.lower()` on the ASCII
strings the code manipulates. -/
def pyLower (s : String) : String := ⟨s.data.map Char.toLower⟩

/-- Python's binary `min` on rationals, in kernel-reducible form. -/
def pymin (a b : ℚ) : ℚ := if a ≤ b then a else b

/-- Python's binary `max` on rationals, in kernel-reducible form. -/
def pymax (a b : ℚ) : ℚ := if a ≤ b then b else a


/-- A transaction record as consumed by `BehavioralAnalyzer`
(`from_address`, `to_address`, unix-second `timestamp`; the remaining
DataFrame columns are never read by the analyzer). -/
structure BTx where
  from_address : String
  to_address : String
  timestamp : Nat
deriving DecidableEq, Repr

namespace BehavioralAnalyzer

/-- `BURST_TX_THRESHOLD = 10` (transactions per hour to flag as burst). -/
def BURST_TX_THRESHOLD : Nat := 10

/-- `HIGH_VELOCITY_THRESHOLD = 50` (transactions per day). -/
def HIGH_VELOCITY_THRESHOLD : Nat := 50

/-- `MIN_FUNDING_DIVERSITY = 3` (minimum different funding sources). -/
def MIN_FUNDING_DIVERSITY : Nat := 3

/-- `CONCENTRATION_THRESHOLD = 0.8` (80% from single source is suspicious). -/
def CONCENTRATION_THRESHOLD : ℚ := 8/10

/-- `_load_mixer_addresses`: the static known mixer/tumbler address set. -/
def known_mixer_addresses : List String :=
  ["0xd90e2f925da726b50c4ed8d0fb90ad053324f31b",
   "0x722122df12d4e14e13ac3b6895a86e84145b6967"]

/-- The dataclass `VelocityScore` (exact values, no display rounding). -/
structure VelocityScore where
  address : String
  tx_count_1h : Nat
  tx_count_24h : Nat
  tx_count_7d : Nat
  avg_tx_per_day : ℚ
  max_tx_in_hour : Nat
  burst_detected : Bool
  velocity_risk_score : ℚ
deriving DecidableEq, Repr

/-- The dataclass `FundingPatternScore` (exact values, no display rounding). -/
structure FundingPatternScore where
  address : String
  unique_funding_sources : Nat
  primary_funding_source : Option String
  funding_concentration : ℚ
  circular_funding_detected : Bool
  wash_trading_indicators : Nat
  funding_risk_score : ℚ
deriving DecidableEq, Repr

/-- The dataclass `BehavioralReport`.  `analysis_timestamp` is the
unix-second clock value read by `datetime.now()` at report time. -/
structure BehavioralReport where
  address : String
  velocity_score : VelocityScore
  funding_pattern : FundingPatternScore
  overall_risk_score : ℚ
  risk_level : String
  suspicious_patterns : List String
  analysis_timestamp : Nat
  tx_analyzed : Nat
deriving DecidableEq, Repr

/-- The address-match mask of `analyze_velocity` / `analyze_address`:
`from_address.str.lower() == addr_lower or to_address.str.lower() == addr_lower`. -/
def matchesAddr (addr : String) (t : BTx) : Bool :=
  (pyLower t.from_address == pyLower addr) || (pyLower t.to_address == pyLower addr)

/-- `transactions[mask]`: the transactions touching `addr`. -/
def filterAddr (txs : List BTx) (addr : String) : List BTx :=
  txs.filter (matchesAddr addr)

/-- Maximum of a list of naturals (`0` on the empty list); used for the
`groupby('hour_bucket').size().max()` and `value_counts` steps. -/
def listMaxNat : List Nat → Nat
  | [] => 0
  | x :: xs => xs.foldl max x

/-- Minimum of a list of naturals (`0` on the empty list); used for
`addr_txs['datetime'].min()`. -/
def listMinNat : List Nat → Nat
  | [] => 0
  | x :: xs => xs.foldl min x

/-- `len(addr_txs[addr_txs['datetime'] >= reference_time - window])`:
the count of transactions inside a trailing window. -/
def txCountWithin (l : List BTx) (window reference_time : Nat) : Nat :=
  (l.filter (fun t => t.timestamp + window ≥ reference_time)).length

/-- `(addr_txs['datetime'].max() - addr_txs['datetime'].min()).total_seconds()`. -/
def timeSpanSecs (l : List BTx) : Nat :=
  listMaxNat (l.map (·.timestamp)) - listMinNat (l.map (·.timestamp))

/-- The `avg_per_day` computation of `analyze_velocity`: for more than
one transaction, count over the active span in days floored at one day;
for a single transaction, the count itself. -/
def avgPerDay (l : List BTx) : ℚ :=
  if l.length > 1 then
    (l.length : ℚ) / pymax ((timeSpanSecs l : ℚ) / 86400) 1
  else (l.length : ℚ)

/-- The busiest hour bucket: transactions are bucketed by
`datetime.floor('H')`, i.e. by `timestamp / 3600`, and the largest
bucket size is taken. -/
def maxTxInHour (l : List BTx) : Nat :=
  let buckets := l.map (fun t => t.timestamp / 3600)
  listMaxNat (buckets.map (fun b => buckets.count b))

/-- The `velocity_risk` formula of `analyze_velocity`:
`min(1.0, (tx_1h/BURST)*0.4 + (avg_per_day/HIGH_VELOCITY)*0.3 + burst*0.3)`. -/
def velocityRisk (tx_1h : Nat) (avg_per_day : ℚ) (burst : Bool) : ℚ :=
  pymin 1
    (((tx_1h : ℚ) / (BURST_TX_THRESHOLD : ℚ)) * (4/10) +
     (avg_per_day / (HIGH_VELOCITY_THRESHOLD : ℚ)) * (3/10) +
     (if burst then (1 : ℚ) else 0) * (3/10))

/-- `_empty_velocity_score`. -/
def empty_velocity_score (address : String) : VelocityScore :=
  { address := pyLower address
    tx_count_1h := 0
    tx_count_24h := 0
    tx_count_7d := 0
    avg_tx_per_day := 0
    max_tx_in_hour := 0
    burst_detected := false
    velocity_risk_score := 0 }

/-- `BehavioralAnalyzer.analyze_velocity`.  `reference_time` is the
unix-second reference point (the Python default `datetime.now()` made
explicit). -/
def analyze_velocity (txs : List BTx) (address : String)
    (reference_time : Nat) : VelocityScore :=
  let addr_txs := filterAddr txs address
  if addr_txs = [] then empty_velocity_score address else
  { address := pyLower address
    tx_count_1h := txCountWithin addr_txs 3600 reference_time
    tx_count_24h := txCountWithin addr_txs 86400 reference_time
    tx_count_7d := txCountWithin addr_txs 604800 reference_time
    avg_tx_per_day := avgPerDay addr_txs
    max_tx_in_hour := maxTxInHour addr_txs
    burst_detected := decide (maxTxInHour addr_txs ≥ BURST_TX_THRESHOLD)
    velocity_risk_score :=
      velocityRisk (txCountWithin addr_txs 3600 reference_time)
        (avgPerDay addr_txs)
        (decide (maxTxInHour addr_txs ≥ BURST_TX_THRESHOLD)) }

/-- Incoming transactions of `addr` (`to_address.str.lower() == addr_lower`). -/
def incomingOf (txs : List BTx) (addr : String) : List BTx :=
  txs.filter (fun t => pyLower t.to_address == pyLower addr)

/-- Outgoing transactions of `addr` (`from_address.str.lower() == addr_lower`). -/
def outgoingOf (txs : List BTx) (addr : String) : List BTx :=
  txs.filter (fun t => pyLower t.from_address == pyLower addr)

/-- The lowered senders of the incoming transactions
(`incoming['from_address'].str.lower()`, with multiplicity). -/
def fundingSourcesOf (txs : List BTx) (addr : String) : List String :=
  (incomingOf txs addr).map (fun t => pyLower t.from_address)

/-- The lowered recipients of the outgoing transactions
(`outgoing['to_address'].str.lower()`; only set membership is ever used). -/
def outgoingRecipientsOf (txs : List BTx) (addr : String) : List String :=
  (outgoingOf txs addr).map (fun t => pyLower t.to_address)

/-- The size of the largest `value_counts` bucket of the funding sources
(`funding_sources.iloc[0]` after the descending sort). -/
def topSourceCount (srcs : List String) : Nat :=
  listMaxNat (srcs.dedup.map (fun s => srcs.count s))

/-- The index of the largest `value_counts` bucket
(`funding_sources.index[0]`): a source attaining the maximal count.
pandas leaves the order among tied counts unspecified; the embedding
picks the first-occurring source attaining the maximum (no claim
depends on the tie-break). -/
def primarySource (srcs : List String) : Option String :=
  (srcs.dedup.filter (fun s => srcs.count s = topSourceCount srcs)).head?

/-- `concentration = funding_sources.iloc[0] / total_incoming`. -/
def concentrationOf (srcs : List String) (total_incoming : Nat) : ℚ :=
  (topSourceCount srcs : ℚ) / (total_incoming : ℚ)

/-- `circular_detected`: the distinct funding sources
(`set(funding_sources.index)`) intersect the outgoing recipients. -/
def circularDetected (txs : List BTx) (addr : String) : Bool :=
  (fundingSourcesOf txs addr).dedup.any
    (fun s => (outgoingRecipientsOf txs addr).contains s)

/-- Some funding source is a known mixer
(`set(funding_sources.index) & known_mixer_addresses`). -/
def mixerFunded (txs : List BTx) (addr : String) : Bool :=
  (fundingSourcesOf txs addr).dedup.any
    (fun s => known_mixer_addresses.contains s)

/-- The `wash_indicators` tally of `analyze_funding_patterns`. -/
def washIndicatorsOf (txs : List BTx) (addr : String) : Nat :=
  (if concentrationOf (fundingSourcesOf txs addr) (incomingOf txs addr).length >
      CONCENTRATION_THRESHOLD then 1 else 0) +
  (if (fundingSourcesOf txs addr).dedup.length < MIN_FUNDING_DIVERSITY then 1 else 0) +
  (if circularDetected txs addr then 2 else 0) +
  (if mixerFunded txs addr then 2 else 0)

/-- The `funding_risk` formula of `analyze_funding_patterns`:
`min(1.0, concentration*0.3 + circular*0.3 + (wash_indicators/6)*0.4)`. -/
def fundingRisk (concentration : ℚ) (circular : Bool) (wash_indicators : Nat) : ℚ :=
  pymin 1
    (concentration * (3/10) +
     (if circular then (1 : ℚ) else 0) * (3/10) +
     ((wash_indicators : ℚ) / 6) * (4/10))

/-- `_empty_funding_score`. -/
def empty_funding_score (address : String) : FundingPatternScore :=
  { address := pyLower address
    unique_funding_sources := 0
    primary_funding_source := none
    funding_concentration := 0
    circular_funding_detected := false
    wash_trading_indicators := 0
    funding_risk_score := 0 }

/-- `BehavioralAnalyzer.analyze_funding_patterns`. -/
def analyze_funding_patterns (txs : List BTx) (address : String) :
    FundingPatternScore :=
  if incomingOf txs address = [] then empty_funding_score address else
  { address := pyLower address
    unique_funding_sources := (fundingSourcesOf txs address).dedup.length
    primary_funding_source := primarySource (fundingSourcesOf txs address)
    funding_concentration :=
      concentrationOf (fundingSourcesOf txs address) (incomingOf txs address).length
    circular_funding_detected := circularDetected txs address
    wash_trading_indicators := washIndicatorsOf txs address
    funding_risk_score :=
      fundingRisk
        (concentrationOf (fundingSourcesOf txs address) (incomingOf txs address).length)
        (circularDetected txs address)
        (washIndicatorsOf txs address) }

/-- `_get_risk_level`. -/
def get_risk_level (score : ℚ) : String :=
  if score ≥ 8/10 then "CRITICAL"
  else if score ≥ 6/10 then "HIGH"
  else if score ≥ 4/10 then "MEDIUM"
  else if score ≥ 2/10 then "LOW"
  else "MINIMAL"

/-- The `suspicious_patterns` list of `analyze_address`. -/
def suspiciousPatterns (velocity : VelocityScore) (funding : FundingPatternScore) :
    List String :=
  (if velocity.burst_detected then ["Burst transaction activity detected"] else []) ++
  (if velocity.avg_tx_per_day > (HIGH_VELOCITY_THRESHOLD : ℚ) then
    ["Unusually high transaction velocity"] else []) ++
  (if funding.circular_funding_detected then ["Circular funding pattern detected"] else []) ++
  (if funding.funding_concentration > CONCENTRATION_THRESHOLD then
    ["High funding concentration from single source"] else []) ++
  (if funding.wash_trading_indicators ≥ 3 then ["Multiple wash trading indicators"] else [])

/-- `overall_risk = velocity_risk_score*0.4 + funding_risk_score*0.6`. -/
def overallRisk (velocity_risk funding_risk : ℚ) : ℚ :=
  velocity_risk * (4/10) + funding_risk * (6/10)

/-- `BehavioralAnalyzer.analyze_address`.  `now` is the unix-second
clock value: the source reads `datetime.now()` both as the default
velocity reference time and for `analysis_timestamp`. -/
def analyze_address (txs : List BTx) (address : String) (now : Nat) :
    BehavioralReport :=
  let velocity := analyze_velocity txs address now
  let funding := analyze_funding_patterns txs address
  { address := pyLower address
    velocity_score := velocity
    funding_pattern := funding
    overall_risk_score := overallRisk velocity.velocity_risk_score funding.funding_risk_score
    risk_level :=
      get_risk_level (overallRisk velocity.velocity_risk_score funding.funding_risk_score)
    suspicious_patterns := suspiciousPatterns velocity funding
    analysis_timestamp := now
    tx_analyzed := (filterAddr txs address).length }

end BehavioralAnalyzer

/-! ## `src/utils/address_validator.py` -/

namespace AddressValidator

/-- The character class `[a-fA-F0-9]` of `ETH_ADDRESS_PATTERN`:
the decimal digits together with the lower- and uppercase hex letters. -/
def hexChars : List Char :=
  ['0', '1', '2', '3', '4'] ++ ['5', '6', '7', '8', '9'] ++
  ['a', 'b', 'c', 'd', 'e', 'f'] ++ ['A', 'B', 'C', 'D', 'E', 'F']

/-- Membership in the regex character class `[a-fA-F0-9]`. -/
def isHexDigitChar (c : Char) : Bool := decide (c ∈ hexChars)

/-- The strict body of the pattern: the character list is `0x` followed
by exactly 40 characters of the class `[a-fA-F0-9]`. -/
def isEthAddrChars (cs : List Char) : Bool :=
  cs.take 2 == ['0', 'x'] &&
  (cs.drop 2).length == 40 &&
  (cs.drop 2).all isHexDigitChar

/-- `is_valid_eth_address_format`: `re.match(r'^0x[a-fA-F0-9]{40}$', s)`.
`^` anchors at the start; in Python, `$` matches at the end of the
string *or just before a newline at the end of the string*, so the
regex accepts `0x` + 40 hex characters optionally followed by one
trailing `'\n'`. -/
def is_valid_eth_address_format (s : String) : Bool :=
  isEthAddrChars s.data ||
  (s.data.getLast? == some '\n' && isEthAddrChars s.data.dropLast)

/-- `normalize_address`: lowercases an address accepted by the format
regex and raises `ValueError` (modelled as `Except.error`) otherwise. -/
def normalize_address (s : String) : Except String String :=
  if is_valid_eth_address_format s then .ok (pyLower s)
  else .error ("Invalid Ethereum address format: " ++ s)

/-- A 40-hex-character address with one trailing newline: accepted by
the Python regex (`$` matches before the final newline) although it is
not of the form `0x` + exactly 40 hex characters. -/
def newlineAddr : String := "0x1234567890123456789012345678901234567890\n"

end AddressValidator

/-! ## `src/models/anomaly_detector.py` and the `lifespan` startup hook
of `src/app/main.py` -/

namespace AnomalyDetector

/-- The state of the external `XGBClassifier` object: whether `fit` has
been called on it.  The classifier's numeric output is produced by the
external XGBoost library and is outside the embedding; only the
fitted/unfitted distinction is modelled. -/
structure XGBModel where
  fitted : Bool
deriving DecidableEq, Repr

/-- The mutable attributes of `AnomalyDetector` read by the train /
predict paths (`self.model`, `self.is_trained`). -/
structure DetectorState where
  model : Option XGBModel
  is_trained : Bool
deriving DecidableEq, Repr

/-- `AnomalyDetector.__init__` with no (or nonexistent) `model_path`:
`self.model = XGBClassifier(**self.params)` — an unfitted classifier —
and `self.is_trained = False`. -/
def fresh : DetectorState := { model := some { fitted := false }, is_trained := false }

/-- `AnomalyDetector.train`: fits a new `XGBClassifier` on the data and
sets `is_trained = True`, unconditionally (the source has no class-count
guard of its own). -/
def train (_d : DetectorState) (_X : List (List ℚ)) (_y : List Nat) : DetectorState :=
  { model := some { fitted := true }, is_trained := true }

/-- Failure modes of the predict path: the detector's own structured
`ValueError("Model not trained...")` guard; the external library's
`NotFittedError` on an unfitted classifier; attribute access on a
`None` model. -/
inductive MLError where
  | modelNotTrained
  | notFitted
  | noneModel
deriving DecidableEq, Repr

/-- `AnomalyDetector.predict_proba`.  The guard is the source's
`if not self.is_trained and self.model is None` (note: `and`).  Past the
guard, `self.model.predict_proba(X)` is the external classifier call:
on an unfitted classifier the library raises `NotFittedError`; the
successful payload (the probability matrix) is external library output
and is abstracted to `Unit`. -/
def predict_proba (d : DetectorState) (_X : List (List ℚ)) : Except MLError Unit :=
  if d.is_trained = false ∧ d.model = none then .error .modelNotTrained
  else
    match d.model with
    | none => .error .noneModel
    | some m => if m.fitted then .ok () else .error .notFitted

/-- `AnomalyDetector.predict`: the same guard and the same external
call, `self.model.predict(X)`. -/
def predict (d : DetectorState) (_X : List (List ℚ)) : Except MLError Unit :=
  if d.is_trained = false ∧ d.model = none then .error .modelNotTrained
  else
    match d.model with
    | none => .error .noneModel
    | some m => if m.fitted then .ok () else .error .notFitted

/-- `AnomalyDetector.detect`: calls `predict_proba` and post-processes
its output (the post-processing operates on external library output and
is abstracted). -/
def detect (d : DetectorState) (X : List (List ℚ)) (_threshold : ℚ) : Except MLError Unit :=
  (predict_proba d X).map (fun _ => ())

/-- `len(set(y))`: the number of distinct label classes. -/
def distinctClassCount (y : List Nat) : Nat := y.dedup.length

/-- The training step of the `lifespan` startup hook in
`src/app/main.py`: `if len(set(y)) > 1: anomaly_detector.train(X, y, ...)`
— otherwise training is skipped and the detector is left untouched. -/
def lifespan_train_step (d : DetectorState) (X : List (List ℚ)) (y : List Nat) :
    DetectorState :=
  if 1 < distinctClassCount y then train d X y else d

end AnomalyDetector

/-! ## `ExploitDetector` (`src/forensics/exploit_detector.py`)

The module itself is not part of the provided sources (only its tests in
`tests/test_detectors.py` and its callers in `src/app/main.py` are), so
the definitions below are modelled from the spec. -/

namespace ExploitDetector

/-- The ordered severity enum `LOW < MEDIUM < HIGH < CRITICAL`. -/
inductive Severity where
  | LOW
  | MEDIUM
  | HIGH
  | CRITICAL
deriving DecidableEq, Repr

/-- A transaction record as consumed by `detect_all`. -/
structure TxRecord where
  from_address : String
  to_address : String
  value_eth : ℚ
  gas_used : Nat
  gas_price_gwei : ℚ
  is_flash_loan : Bool
deriving DecidableEq, Repr

/-- The per-rule result record (the fields the claims depend on). -/
structure RuleResult where
  rule_id : String
  is_triggered : Bool
  severity : Severity
  confidence : ℚ
deriving DecidableEq, Repr

/-- `Modelled from the spec:` the BlacklistRegistry of §4.2 — three
static, possibly-overlapping address sets (known-exploit attackers,
sanctioned addresses, mixers), loaded once at startup. -/
structure BlacklistRegistry where
  attackers : List String
  sanctioned : List String
  mixers : List String
deriving DecidableEq, Repr

/-- `Modelled from the spec:` large-value threshold (default 100 ETH). -/
def LARGE_VALUE_THRESHOLD : ℚ := 100

/-- `Modelled from the spec:` abnormal gas-usage threshold (default 500000). -/
def HIGH_GAS_THRESHOLD : Nat := 500000

/-- `Modelled from the spec:` abnormal gas-price threshold (default 50 gwei). -/
def HIGH_GAS_PRICE_THRESHOLD : ℚ := 50

/-- `Modelled from the spec:` the "lower secondary threshold" of the
flash-loan amplification rule (the spec fixes the rule's shape but not
the number; 10 ETH is a representative choice — no claim depends on it). -/
def FLASH_LOAN_VALUE_THRESHOLD : ℚ := 10

/-- `Modelled from the spec:` known-attacker rule — triggers iff
`from_address` or `to_address` is in the registry's attacker set;
severity CRITICAL, confidence 1.0 when triggered. -/
def rule_known_attacker (reg : BlacklistRegistry) (tx : TxRecord) : RuleResult :=
  let hit := reg.attackers.contains (pyLower tx.from_address) ||
             reg.attackers.contains (pyLower tx.to_address)
  { rule_id := "known_attacker_match"
    is_triggered := hit
    severity := .CRITICAL
    confidence := if hit then 1 else 0 }

/-- `Modelled from the spec:` large-value rule — triggers when
`value_eth` exceeds the threshold; severity scales with magnitude;
confidence scales with the excess ratio, capped at 1.0. -/
def rule_large_value (tx : TxRecord) : RuleResult :=
  let hit := tx.value_eth > LARGE_VALUE_THRESHOLD
  { rule_id := "large_value_transfer"
    is_triggered := hit
    severity := if tx.value_eth > 10 * LARGE_VALUE_THRESHOLD then .HIGH else .MEDIUM
    confidence := if hit then pymin 1 (tx.value_eth / LARGE_VALUE_THRESHOLD - 1) else 0 }

/-- `Modelled from the spec:` abnormal gas usage — triggers above the
`gas_used` threshold; severity MEDIUM; confidence from the
usage/threshold ratio, capped at 1.0. -/
def rule_high_gas (tx : TxRecord) : RuleResult :=
  let hit := tx.gas_used > HIGH_GAS_THRESHOLD
  { rule_id := "abnormal_gas_usage"
    is_triggered := hit
    severity := .MEDIUM
    confidence := if hit then pymin 1 ((tx.gas_used : ℚ) / (HIGH_GAS_THRESHOLD : ℚ) - 1) else 0 }

/-- `Modelled from the spec:` abnormal gas price — triggers above the
`gas_price_gwei` threshold; severity LOW–MEDIUM by degree. -/
def rule_high_gas_price (tx : TxRecord) : RuleResult :=
  let hit := tx.gas_price_gwei > HIGH_GAS_PRICE_THRESHOLD
  { rule_id := "abnormal_gas_price"
    is_triggered := hit
    severity := if tx.gas_price_gwei > 2 * HIGH_GAS_PRICE_THRESHOLD then .MEDIUM else .LOW
    confidence := if hit then pymin 1 (tx.gas_price_gwei / HIGH_GAS_PRICE_THRESHOLD - 1) else 0 }

/-- `Modelled from the spec:` flash-loan amplification — triggers when
`is_flash_loan` is true and `value_eth` exceeds the lower secondary
threshold; severity HIGH. -/
def rule_flash_loan (tx : TxRecord) : RuleResult :=
  let hit := tx.is_flash_loan && decide (tx.value_eth > FLASH_LOAN_VALUE_THRESHOLD)
  { rule_id := "flash_loan_amplification"
    is_triggered := hit
    severity := .HIGH
    confidence := if hit then 1 else 0 }

/-- `Modelled from the spec:` same-block burst — triggers when the same
address appears in the supplied address-history context beyond a repeat
threshold within one block; without caller-supplied history context the
rule cannot trigger.  `detect_all(tx)` is invoked without history. -/
def rule_same_block_burst (history : Option (List TxRecord)) (tx : TxRecord) : RuleResult :=
  let cnt := match history with
    | none => 0
    | some h => (h.filter (fun t => pyLower t.from_address == pyLower tx.from_address)).length
  let hit := cnt > 3
  { rule_id := "same_block_burst"
    is_triggered := hit
    severity := if cnt > 6 then .HIGH else .MEDIUM
    confidence := if hit then 1 else 0 }

/-- `Modelled from the spec:` `ExploitDetector.detect_all` — evaluates
the fixed battery of six independent rules against one transaction and
returns all six `RuleResult`s in order, with no short-circuiting. -/
def detect_all (reg : BlacklistRegistry) (tx : TxRecord) : List RuleResult :=
  [rule_known_attacker reg tx,
   rule_large_value tx,
   rule_high_gas tx,
   rule_high_gas_price tx,
   rule_flash_loan tx,
   rule_same_block_burst none tx]

/-- A registry populated with the known-attacker address exercised by
`tests/test_detectors.py` (the Euler exploiter) and the static mixer
set. -/
def demoRegistry : BlacklistRegistry :=
  { attackers := ["0xb66cd966670d962c227b3eaba30a872dbfb995db"]
    sanctioned := []
    mixers := BehavioralAnalyzer.known_mixer_addresses }

end ExploitDetector

/-! ## Concrete demonstration inputs (used by witnesses and
counterexamples) -/

/-- A two-transaction history touching `0xa`: one outgoing at normal
activity, one incoming ten minutes later. -/
def vTxs : List BTx := [⟨"0xa", "0xb", 0⟩, ⟨"0xc", "0xa", 600⟩]

/-- The minimal circular-funding history: `A` funds `B`, then `B` funds
`A`. -/
def circTxs : List BTx := [⟨"0xa", "0xb", 0⟩, ⟨"0xb", "0xa", 5⟩]

/-! ## Helper lemmas -/

theorem pymin_eq_min (a b : ℚ) : pymin a b = min a b := (min_def a b).symm

theorem pymax_eq_max (a b : ℚ) : pymax a b = max a b := (max_def a b).symm

namespace BehavioralAnalyzer

theorem foldl_max_le {n a : Nat} {l : List Nat} (ha : a ≤ n)
    (h : ∀ x ∈ l, x ≤ n) : l.foldl max a ≤ n := by
  induction l generalizing a with
  | nil => exact ha
  | cons x xs ih =>
    exact ih (max_le ha (h x (List.mem_cons_self x xs)))
      (fun y hy => h y (List.mem_cons_of_mem x hy))

theorem listMaxNat_le {n : Nat} {l : List Nat} (h : ∀ x ∈ l, x ≤ n) :
    listMaxNat l ≤ n := by
  cases l with
  | nil => exact Nat.zero_le n
  | cons x xs =>
    exact foldl_max_le (h x (List.mem_cons_self x xs))
      (fun y hy => h y (List.mem_cons_of_mem x hy))

theorem topSourceCount_le_length (srcs : List String) :
    topSourceCount srcs ≤ srcs.length := by
  apply listMaxNat_le
  intro x hx
  obtain ⟨s, _, rfl⟩ := List.mem_map.mp hx
  exact List.count_le_length s srcs

theorem dedup_any_eq {α : Type} [DecidableEq α] (l : List α) (p : α → Bool) :
    l.dedup.any p = l.any p := by
  rw [Bool.eq_iff_iff]
  simp only [List.any_eq_true, List.mem_dedup]

theorem timeSpanSecs_singleton (t : BTx) : timeSpanSecs [t] = 0 := by
  simp [timeSpanSecs, listMaxNat, listMinNat]

theorem avgPerDay_eq {l : List BTx} (h : l ≠ []) :
    avgPerDay l = (l.length : ℚ) / max ((timeSpanSecs l : ℚ) / 86400) 1 := by
  unfold avgPerDay
  by_cases h1 : l.length > 1
  · simp [h1, pymax_eq_max]
  · have hl : l.length = 1 := by
      have := List.length_pos.mpr h
      omega
    obtain ⟨a, rfl⟩ := List.length_eq_one.mp hl
    rw [if_neg h1, timeSpanSecs_singleton]
    norm_num

theorem avgPerDay_nonneg (l : List BTx) : 0 ≤ avgPerDay l := by
  unfold avgPerDay
  split
  · rw [pymax_eq_max]
    apply div_nonneg (by positivity)
    exact le_trans zero_le_one (le_max_right _ _)
  · positivity

theorem velocityRisk_eq (n : Nat) (avg : ℚ) (b : Bool) :
    velocityRisk n avg b =
      min 1 ((4/10) * ((n : ℚ) / 10) + (3/10) * (avg / 50) +
             (3/10) * (if b then (1 : ℚ) else 0)) := by
  unfold velocityRisk BURST_TX_THRESHOLD HIGH_VELOCITY_THRESHOLD
  rw [pymin_eq_min]
  congr 1
  push_cast
  ring

theorem velocityRisk_mem (n : Nat) (avg : ℚ) (b : Bool) (h : 0 ≤ avg) :
    0 ≤ velocityRisk n avg b ∧ velocityRisk n avg b ≤ 1 := by
  unfold velocityRisk
  rw [pymin_eq_min]
  refine ⟨le_min zero_le_one ?_, min_le_left _ _⟩
  have h1 : 0 ≤ ((n : ℚ) / (BURST_TX_THRESHOLD : ℚ)) * (4/10) := by positivity
  have h2 : 0 ≤ (avg / (HIGH_VELOCITY_THRESHOLD : ℚ)) * (3/10) := by
    apply mul_nonneg (div_nonneg h (by norm_num [HIGH_VELOCITY_THRESHOLD])) (by norm_num)
  have h3 : 0 ≤ (if b then (1 : ℚ) else 0) * (3/10) := by
    split <;> norm_num
  linarith

theorem fundingRisk_eq (c : ℚ) (b : Bool) (w : Nat) :
    fundingRisk c b w =
      min 1 ((3/10) * c + (3/10) * (if b then (1 : ℚ) else 0) +
             (4/10) * ((w : ℚ) / 6)) := by
  unfold fundingRisk
  rw [pymin_eq_min]
  congr 1
  ring

theorem fundingRisk_mem (c : ℚ) (b : Bool) (w : Nat) (h : 0 ≤ c) :
    0 ≤ fundingRisk c b w ∧ fundingRisk c b w ≤ 1 := by
  unfold fundingRisk
  rw [pymin_eq_min]
  refine ⟨le_min zero_le_one ?_, min_le_left _ _⟩
  have h1 : 0 ≤ c * (3/10) := by positivity
  have h2 : 0 ≤ (if b then (1 : ℚ) else 0) * (3/10) := by split <;> norm_num
  have h3 : 0 ≤ ((w : ℚ) / 6) * (4/10) := by positivity
  linarith

theorem concentrationOf_nonneg (srcs : List String) (n : Nat) :
    0 ≤ concentrationOf srcs n := by
  unfold concentrationOf
  positivity

theorem concentrationOf_le_one (srcs : List String) :
    concentrationOf srcs srcs.length ≤ 1 := by
  unfold concentrationOf
  rcases Nat.eq_zero_or_pos srcs.length with h0 | h0
  · simp [h0]
  · rw [div_le_one (by exact_mod_cast h0)]
    exact_mod_cast topSourceCount_le_length srcs

theorem fundingSourcesOf_length (txs : List BTx) (addr : String) :
    (fundingSourcesOf txs addr).length = (incomingOf txs addr).length := by
  simp [fundingSourcesOf]

theorem incomingOf_eq_nil_of_filterAddr {txs : List BTx} {addr : String}
    (h : filterAddr txs addr = []) : incomingOf txs addr = [] := by
  rw [filterAddr, List.filter_eq_nil_iff] at h
  rw [incomingOf, List.filter_eq_nil_iff]
  intro t ht
  have := h t ht
  simp only [matchesAddr, Bool.or_eq_true, not_or] at this
  simpa using this.2

theorem analyze_velocity_of_ne {txs : List BTx} {addr : String} (ref : Nat)
    (h : filterAddr txs addr ≠ []) :
    analyze_velocity txs addr ref =
      { address := pyLower addr
        tx_count_1h := txCountWithin (filterAddr txs addr) 3600 ref
        tx_count_24h := txCountWithin (filterAddr txs addr) 86400 ref
        tx_count_7d := txCountWithin (filterAddr txs addr) 604800 ref
        avg_tx_per_day := avgPerDay (filterAddr txs addr)
        max_tx_in_hour := maxTxInHour (filterAddr txs addr)
        burst_detected := decide (maxTxInHour (filterAddr txs addr) ≥ BURST_TX_THRESHOLD)
        velocity_risk_score :=
          velocityRisk (txCountWithin (filterAddr txs addr) 3600 ref)
            (avgPerDay (filterAddr txs addr))
            (decide (maxTxInHour (filterAddr txs addr) ≥ BURST_TX_THRESHOLD)) } := by
  rw [analyze_velocity, if_neg h]

theorem analyze_velocity_of_nil {txs : List BTx} {addr : String} (ref : Nat)
    (h : filterAddr txs addr = []) :
    analyze_velocity txs addr ref = empty_velocity_score addr := by
  rw [analyze_velocity, if_pos h]

theorem analyze_funding_of_ne {txs : List BTx} {addr : String}
    (h : incomingOf txs addr ≠ []) :
    analyze_funding_patterns txs addr =
      { address := pyLower addr
        unique_funding_sources := (fundingSourcesOf txs addr).dedup.length
        primary_funding_source := primarySource (fundingSourcesOf txs addr)
        funding_concentration :=
          concentrationOf (fundingSourcesOf txs addr) (incomingOf txs addr).length
        circular_funding_detected := circularDetected txs addr
        wash_trading_indicators := washIndicatorsOf txs addr
        funding_risk_score :=
          fundingRisk
            (concentrationOf (fundingSourcesOf txs addr) (incomingOf txs addr).length)
            (circularDetected txs addr)
            (washIndicatorsOf txs addr) } := by
  rw [analyze_funding_patterns, if_neg h]

theorem analyze_funding_of_nil {txs : List BTx} {addr : String}
    (h : incomingOf txs addr = []) :
    analyze_funding_patterns txs addr = empty_funding_score addr := by
  rw [analyze_funding_patterns, if_pos h]

end BehavioralAnalyzer

namespace AddressValidator

theorem hexChars_toLower :
    ∀ c ∈ hexChars, Char.toLower c ∈ hexChars ∧
      (Char.toLower c).toLower = Char.toLower c := by decide

theorem isHexDigitChar_iff {c : Char} : isHexDigitChar c = true ↔ c ∈ hexChars := by
  simp [isHexDigitChar]

theorem ethAddrChars_iff {cs : List Char} :
    isEthAddrChars cs = true ↔
      cs.take 2 = ['0', 'x'] ∧ (cs.drop 2).length = 40 ∧
      ∀ c ∈ cs.drop 2, c ∈ hexChars := by
  simp [isEthAddrChars, List.all_eq_true, isHexDigitChar_iff, and_assoc]

theorem pyLower_data (s : String) : (pyLower s).data = s.data.map Char.toLower := rfl

theorem ethAddrChars_map_toLower {cs : List Char} (h : isEthAddrChars cs = true) :
    isEthAddrChars (cs.map Char.toLower) = true := by
  rw [ethAddrChars_iff] at h ⊢
  obtain ⟨h1, h2, h3⟩ := h
  refine ⟨?_, ?_, ?_⟩
  · rw [← List.map_take, h1]
    decide
  · rw [← List.map_drop, List.length_map, h2]
  · rw [← List.map_drop]
    intro c hc
    obtain ⟨c', hc', rfl⟩ := List.mem_map.mp hc
    exact (hexChars_toLower c' (h3 c' hc')).1

theorem toLower_idem_core {cs : List Char} (h : isEthAddrChars cs = true) :
    ∀ c ∈ cs, (Char.toLower c).toLower = Char.toLower c := by
  rw [ethAddrChars_iff] at h
  obtain ⟨h1, _, h3⟩ := h
  intro c hc
  rw [← List.take_append_drop 2 cs] at hc
  rcases List.mem_append.mp hc with hc | hc
  · rw [h1] at hc
    simp only [List.mem_cons, List.not_mem_nil, or_false] at hc
    rcases hc with rfl | rfl <;> decide
  · exact (hexChars_toLower c (h3 c hc)).2

theorem valid_cases {s : String} :
    is_valid_eth_address_format s = true ↔
      (isEthAddrChars s.data = true ∨
       (s.data.getLast? = some '\n' ∧ isEthAddrChars s.data.dropLast = true)) := by
  simp [is_valid_eth_address_format]

theorem pyLower_valid {s : String} (h : is_valid_eth_address_format s = true) :
    is_valid_eth_address_format (pyLower s) = true := by
  rw [valid_cases] at h ⊢
  rcases h with h | ⟨h1, h2⟩
  · exact Or.inl (ethAddrChars_map_toLower h)
  · refine Or.inr ⟨?_, ?_⟩
    · have hmap : (s.data.map Char.toLower).getLast? =
        s.data.getLast?.map Char.toLower := by simp
      rw [pyLower_data, hmap, h1]
      decide
    · have hmap : (s.data.map Char.toLower).dropLast =
        s.data.dropLast.map Char.toLower := by simp
      rw [pyLower_data, hmap]
      exact ethAddrChars_map_toLower h2

theorem pyLower_idem_of_valid {s : String} (h : is_valid_eth_address_format s = true) :
    pyLower (pyLower s) = pyLower s := by
  rw [valid_cases] at h
  have key : ∀ c ∈ s.data, (Char.toLower c).toLower = Char.toLower c := by
    rcases h with h | ⟨h1, h2⟩
    · exact toLower_idem_core h
    · intro c hc
      have hne : s.data ≠ [] := by
        intro hnil
        rw [hnil] at h1
        simp at h1
      rw [← List.dropLast_append_getLast hne] at hc
      rcases List.mem_append.mp hc with hc | hc
      · exact toLower_idem_core h2 c hc
      · have hlast : s.data.getLast hne = '\n' := by
          have hq := List.getLast?_eq_getLast_of_ne_nil hne
          rw [h1] at hq
          exact (Option.some.inj hq).symm
        simp only [List.mem_cons, List.not_mem_nil, or_false] at hc
        subst hc
        rw [hlast]
        decide
  show String.mk ((s.data.map Char.toLower).map Char.toLower) = String.mk (s.data.map Char.toLower)
  rw [List.map_map]
  exact congrArg String.mk (List.map_congr_left (fun c hc => key c hc))

end AddressValidator

/-! ## Claim theorems -/

open BehavioralAnalyzer AddressValidator AnomalyDetector ExploitDetector

/-- C10 counterexample: the claim's `invalid ⇒ ValueError` clause fails
on the source.  `newlineAddr` is `0x` + 40 hex characters + a trailing
`'\n'` (43 characters), so it is *not* of the claimed shape "`0x`
followed by exactly 40 hex characters" — yet Python's `$` matches just
before the final newline, `is_valid_eth_address_format` accepts it, and
`normalize_address` returns the lowered string (newline kept) instead
of raising. -/
theorem normalize_address_newline_counterexample :
    newlineAddr.data.length = 43 ∧
    isEthAddrChars newlineAddr.data = false ∧
    is_valid_eth_address_format newlineAddr = true ∧
    normalize_address newlineAddr = .ok (pyLower newlineAddr) := by
  refine ⟨by decide, by decide, by decide, ?_⟩
  rw [normalize_address, if_pos (by decide)]

/-- C10 (amended): `normalize_address` accepts exactly the language of
`re.match(r'^0x[a-fA-F0-9]{40}$', ·)` — `0x` + 40 hex characters,
optionally followed by one trailing newline (which Python's `$` permits)
— and returns the character-wise lowercase form (newline preserved);
normalization is idempotent (the normalized address is itself accepted
and is its own normal form) and case-collapsing (two accepted addresses
with the same character-wise lowering — i.e. differing only in
hex-letter case — normalize identically); every string outside that
language is rejected with a `ValueError` instead of a value. -/
theorem normalize_address_spec (s t : String) :
    (is_valid_eth_address_format s = true →
      normalize_address s = .ok (pyLower s) ∧
      normalize_address (pyLower s) = .ok (pyLower s) ∧
      (is_valid_eth_address_format t = true → pyLower s = pyLower t →
        normalize_address s = normalize_address t)) ∧
    (is_valid_eth_address_format s = false →
      normalize_address s = .error ("Invalid Ethereum address format: " ++ s)) ∧
    (is_valid_eth_address_format s = true ↔
      (isEthAddrChars s.data = true ∨
       (s.data.getLast? = some '\n' ∧ isEthAddrChars s.data.dropLast = true))) := by
  refine ⟨?_, ?_, valid_cases⟩
  · intro h
    refine ⟨?_, ?_, ?_⟩
    · rw [normalize_address, if_pos h]
    · rw [normalize_address, if_pos (pyLower_valid h), pyLower_idem_of_valid h]
    · intro ht hst
      rw [normalize_address, if_pos h, normalize_address, if_pos ht, hst]
  · intro h
    rw [normalize_address, if_neg (by simp [h])]

/-- Witness for C10 at concrete inputs: a mixed-case valid address, its
all-lowercase variant, the trailing-newline address accepted through
the `$`-before-newline case, and a too-short invalid string. -/
theorem normalize_address_spec_witness :
    is_valid_eth_address_format "0xAbCdEf0123456789aBcDeF0123456789AbCdEf01" = true ∧
    is_valid_eth_address_format "0xabcdef0123456789abcdef0123456789abcdef01" = true ∧
    pyLower "0xAbCdEf0123456789aBcDeF0123456789AbCdEf01" =
      pyLower "0xabcdef0123456789abcdef0123456789abcdef01" ∧
    normalize_address "0xAbCdEf0123456789aBcDeF0123456789AbCdEf01" =
      .ok (pyLower "0xAbCdEf0123456789aBcDeF0123456789AbCdEf01") ∧
    normalize_address "0xAbCdEf0123456789aBcDeF0123456789AbCdEf01" =
      normalize_address "0xabcdef0123456789abcdef0123456789abcdef01" ∧
    is_valid_eth_address_format newlineAddr = true ∧
    normalize_address newlineAddr = .ok (pyLower newlineAddr) ∧
    is_valid_eth_address_format "0x123" = false ∧
    normalize_address "0x123" =
      .error ("Invalid Ethereum address format: " ++ "0x123") :=
  ⟨by decide, by decide, by decide,
   ((normalize_address_spec "0xAbCdEf0123456789aBcDeF0123456789AbCdEf01"
      "0xabcdef0123456789abcdef0123456789abcdef01").1 (by decide)).1,
   ((normalize_address_spec "0xAbCdEf0123456789aBcDeF0123456789AbCdEf01"
      "0xabcdef0123456789abcdef0123456789abcdef01").1 (by decide)).2.2
     (by decide) (by decide),
   by decide,
   ((normalize_address_spec newlineAddr "0x123").1 (by decide)).1,
   by decide,
   (normalize_address_spec "0x123" "0x123").2.1 (by decide)⟩

/-- C1: for a transaction history and an address with at least one
matching transaction, `analyze_velocity` returns
`velocity_risk_score = min(1, 0.4·(tx_count_1h/10) + 0.3·(avg_tx_per_day/50)
+ 0.3·[burst])`, where `burst_detected` holds exactly when the busiest
hour bucket holds at least 10 transactions, and `avg_tx_per_day` is the
matching-transaction count divided by the active span in days with the
denominator floored at one day; an address with no matching transactions
gets the all-zero `VelocityScore` rather than an error. -/
theorem analyze_velocity_spec (txs : List BTx) (addr : String) (ref : Nat) :
    (filterAddr txs addr ≠ [] →
      ((analyze_velocity txs addr ref).velocity_risk_score =
         min 1 ((4/10) * (((analyze_velocity txs addr ref).tx_count_1h : ℚ) / 10) +
                (3/10) * ((analyze_velocity txs addr ref).avg_tx_per_day / 50) +
                (3/10) * (if (analyze_velocity txs addr ref).burst_detected
                          then (1 : ℚ) else 0)) ∧
       ((analyze_velocity txs addr ref).burst_detected = true ↔
          10 ≤ maxTxInHour (filterAddr txs addr)) ∧
       (analyze_velocity txs addr ref).avg_tx_per_day =
         ((filterAddr txs addr).length : ℚ) /
           max ((timeSpanSecs (filterAddr txs addr) : ℚ) / 86400) 1)) ∧
    (filterAddr txs addr = [] →
      analyze_velocity txs addr ref = empty_velocity_score addr) := by
  constructor
  · intro h
    rw [analyze_velocity_of_ne ref h]
    dsimp only
    refine ⟨velocityRisk_eq _ _ _, ?_, avgPerDay_eq h⟩
    simp [BURST_TX_THRESHOLD, ge_iff_le]
  · exact analyze_velocity_of_nil ref

/-- Witness for C1: the two-transaction history `vTxs` for the matching
address `0xa` (both conjuncts of the formula branch) and the untouched
address `0xdd` (the all-zero branch). -/
theorem analyze_velocity_spec_witness :
    (filterAddr vTxs "0xa" ≠ [] ∧
      ((analyze_velocity vTxs "0xa" 1800).velocity_risk_score =
         min 1 ((4/10) * (((analyze_velocity vTxs "0xa" 1800).tx_count_1h : ℚ) / 10) +
                (3/10) * ((analyze_velocity vTxs "0xa" 1800).avg_tx_per_day / 50) +
                (3/10) * (if (analyze_velocity vTxs "0xa" 1800).burst_detected
                          then (1 : ℚ) else 0)) ∧
       ((analyze_velocity vTxs "0xa" 1800).burst_detected = true ↔
          10 ≤ maxTxInHour (filterAddr vTxs "0xa")) ∧
       (analyze_velocity vTxs "0xa" 1800).avg_tx_per_day =
         ((filterAddr vTxs "0xa").length : ℚ) /
           max ((timeSpanSecs (filterAddr vTxs "0xa") : ℚ) / 86400) 1)) ∧
    (filterAddr vTxs "0xdd" = [] ∧
      analyze_velocity vTxs "0xdd" 1800 = empty_velocity_score "0xdd") :=
  ⟨⟨by decide, (analyze_velocity_spec vTxs "0xa" 1800).1 (by decide)⟩,
   ⟨by decide, (analyze_velocity_spec vTxs "0xdd" 1800).2 (by decide)⟩⟩

/-- C2: for an address with at least one incoming transaction,
`analyze_funding_patterns` returns `wash_trading_indicators` equal to
the tally (+1 if concentration exceeds 0.8, +1 if unique sources below
3, +2 if circular funding detected, +2 if any funding source is a known
mixer) and `funding_risk_score = min(1, 0.3·concentration +
0.3·[circular] + 0.4·(indicators/6))`; an address with no incoming
transactions gets the all-zero `FundingPatternScore`. -/
theorem analyze_funding_spec (txs : List BTx) (addr : String) :
    (incomingOf txs addr ≠ [] →
      ((analyze_funding_patterns txs addr).wash_trading_indicators =
         (if (analyze_funding_patterns txs addr).funding_concentration > 8/10
          then 1 else 0) +
         (if (analyze_funding_patterns txs addr).unique_funding_sources < 3
          then 1 else 0) +
         (if (analyze_funding_patterns txs addr).circular_funding_detected
          then 2 else 0) +
         (if (fundingSourcesOf txs addr).any
              (fun s => known_mixer_addresses.contains s) then 2 else 0) ∧
       (analyze_funding_patterns txs addr).funding_risk_score =
         min 1 ((3/10) * (analyze_funding_patterns txs addr).funding_concentration +
                (3/10) * (if (analyze_funding_patterns txs addr).circular_funding_detected
                          then (1 : ℚ) else 0) +
                (4/10) * (((analyze_funding_patterns txs addr).wash_trading_indicators : ℚ)
                          / 6)))) ∧
    (incomingOf txs addr = [] →
      analyze_funding_patterns txs addr = empty_funding_score addr) := by
  constructor
  · intro h
    rw [analyze_funding_of_ne h]
    dsimp only
    constructor
    · simp only [washIndicatorsOf, mixerFunded, CONCENTRATION_THRESHOLD,
        MIN_FUNDING_DIVERSITY, dedup_any_eq]
    · exact fundingRisk_eq _ _ _
  · exact analyze_funding_of_nil

/-- Witness for C2: the circular history `circTxs` at address `0xa`
(which has one incoming transaction) and the history `vTxs` at address
`0xc` (which has no incoming transaction). -/
theorem analyze_funding_spec_witness :
    (incomingOf circTxs "0xa" ≠ [] ∧
      ((analyze_funding_patterns circTxs "0xa").wash_trading_indicators =
         (if (analyze_funding_patterns circTxs "0xa").funding_concentration > 8/10
          then 1 else 0) +
         (if (analyze_funding_patterns circTxs "0xa").unique_funding_sources < 3
          then 1 else 0) +
         (if (analyze_funding_patterns circTxs "0xa").circular_funding_detected
          then 2 else 0) +
         (if (fundingSourcesOf circTxs "0xa").any
              (fun s => known_mixer_addresses.contains s) then 2 else 0) ∧
       (analyze_funding_patterns circTxs "0xa").funding_risk_score =
         min 1 ((3/10) * (analyze_funding_patterns circTxs "0xa").funding_concentration +
                (3/10) * (if (analyze_funding_patterns circTxs "0xa").circular_funding_detected
                          then (1 : ℚ) else 0) +
                (4/10) * (((analyze_funding_patterns circTxs "0xa").wash_trading_indicators : ℚ)
                          / 6)))) ∧
    (incomingOf vTxs "0xc" = [] ∧
      analyze_funding_patterns vTxs "0xc" = empty_funding_score "0xc") :=
  ⟨⟨by decide, (analyze_funding_spec circTxs "0xa").1 (by decide)⟩,
   ⟨by decide, (analyze_funding_spec vTxs "0xc").2 (by decide)⟩⟩

/-- C3: `circular_funding_detected` holds iff the set of normalized
funding sources (senders of incoming transactions) intersects the
address's own outgoing recipients; in the minimal two-transaction
history where `A` funds `B` and `B` funds `A`, it is detected for both
`A` and `B`. -/
theorem circular_funding_iff (txs : List BTx) (addr : String) :
    ((analyze_funding_patterns txs addr).circular_funding_detected = true ↔
      ∃ s, s ∈ fundingSourcesOf txs addr ∧ s ∈ outgoingRecipientsOf txs addr) ∧
    (analyze_funding_patterns circTxs "0xa").circular_funding_detected = true ∧
    (analyze_funding_patterns circTxs "0xb").circular_funding_detected = true := by
  refine ⟨?_, by decide, by decide⟩
  by_cases h : incomingOf txs addr = []
  · rw [analyze_funding_of_nil h]
    simp [empty_funding_score, fundingSourcesOf, h]
  · rw [analyze_funding_of_ne h]
    dsimp only
    simp [circularDetected, dedup_any_eq, List.any_eq_true]

/-- Witness for C3: in `circTxs` the funding source `0xb` of `0xa` is
also an outgoing recipient of `0xa`, and the theorem's equivalence turns
that intersection witness into the detection flag. -/
theorem circular_funding_iff_witness :
    (∃ s, s ∈ fundingSourcesOf circTxs "0xa" ∧ s ∈ outgoingRecipientsOf circTxs "0xa") ∧
    (analyze_funding_patterns circTxs "0xa").circular_funding_detected = true :=
  ⟨⟨"0xb", by decide, by decide⟩,
   (circular_funding_iff circTxs "0xa").1.mpr ⟨"0xb", by decide, by decide⟩⟩

/-- C4: `analyze_address` reports
`overall_risk_score = 0.4·velocity_risk_score + 0.6·funding_risk_score`,
bucketed into CRITICAL/HIGH/MEDIUM/LOW/MINIMAL at 0.8/0.6/0.4/0.2; an
address with zero matching transactions gets score 0 and MINIMAL. -/
theorem analyze_address_spec (txs : List BTx) (addr : String) (now : Nat) :
    ((analyze_address txs addr now).overall_risk_score =
       (4/10) * (analyze_velocity txs addr now).velocity_risk_score +
       (6/10) * (analyze_funding_patterns txs addr).funding_risk_score) ∧
    ((analyze_address txs addr now).risk_level =
       if (analyze_address txs addr now).overall_risk_score ≥ 8/10 then "CRITICAL"
       else if (analyze_address txs addr now).overall_risk_score ≥ 6/10 then "HIGH"
       else if (analyze_address txs addr now).overall_risk_score ≥ 4/10 then "MEDIUM"
       else if (analyze_address txs addr now).overall_risk_score ≥ 2/10 then "LOW"
       else "MINIMAL") ∧
    (filterAddr txs addr = [] →
      (analyze_address txs addr now).overall_risk_score = 0 ∧
      (analyze_address txs addr now).risk_level = "MINIMAL") := by
  refine ⟨?_, ?_, ?_⟩
  · show overallRisk (analyze_velocity txs addr now).velocity_risk_score
      (analyze_funding_patterns txs addr).funding_risk_score = _
    rw [overallRisk]
    ring
  · show get_risk_level (analyze_address txs addr now).overall_risk_score = _
    unfold get_risk_level
    rfl
  · intro h
    have hv := analyze_velocity_of_nil now h
    have hf := analyze_funding_of_nil (incomingOf_eq_nil_of_filterAddr h)
    have h0 : (analyze_address txs addr now).overall_risk_score = 0 := by
      show overallRisk (analyze_velocity txs addr now).velocity_risk_score
        (analyze_funding_patterns txs addr).funding_risk_score = 0
      rw [hv, hf]
      simp [empty_velocity_score, empty_funding_score, overallRisk]
    refine ⟨h0, ?_⟩
    show get_risk_level (analyze_address txs addr now).overall_risk_score = _
    rw [h0]
    norm_num [get_risk_level]

/-- Witness for C4 at a concrete input: the untouched address `0xdd`
over `vTxs` gets overall score 0 and MINIMAL. -/
theorem analyze_address_spec_witness :
    filterAddr vTxs "0xdd" = [] ∧
    ((analyze_address vTxs "0xdd" 1800).overall_risk_score = 0 ∧
     (analyze_address vTxs "0xdd" 1800).risk_level = "MINIMAL") :=
  ⟨by decide, (analyze_address_spec vTxs "0xdd" 1800).2.2 (by decide)⟩

/-- C6: all numeric sub-scores of the behavioral analyzer —
`velocity_risk_score`, `funding_risk_score`, `funding_concentration`
and `overall_risk_score` — lie in the closed unit interval for every
history and address. -/
theorem scores_in_unit_interval (txs : List BTx) (addr : String) (now : Nat) :
    (0 ≤ (analyze_velocity txs addr now).velocity_risk_score ∧
      (analyze_velocity txs addr now).velocity_risk_score ≤ 1) ∧
    (0 ≤ (analyze_funding_patterns txs addr).funding_risk_score ∧
      (analyze_funding_patterns txs addr).funding_risk_score ≤ 1) ∧
    (0 ≤ (analyze_funding_patterns txs addr).funding_concentration ∧
      (analyze_funding_patterns txs addr).funding_concentration ≤ 1) ∧
    (0 ≤ (analyze_address txs addr now).overall_risk_score ∧
      (analyze_address txs addr now).overall_risk_score ≤ 1) := by
  have hvel : 0 ≤ (analyze_velocity txs addr now).velocity_risk_score ∧
      (analyze_velocity txs addr now).velocity_risk_score ≤ 1 := by
    by_cases h : filterAddr txs addr = []
    · rw [analyze_velocity_of_nil now h]
      simp [empty_velocity_score]
    · rw [analyze_velocity_of_ne now h]
      exact velocityRisk_mem _ _ _ (avgPerDay_nonneg _)
  have hconc : 0 ≤ (analyze_funding_patterns txs addr).funding_concentration ∧
      (analyze_funding_patterns txs addr).funding_concentration ≤ 1 := by
    by_cases h : incomingOf txs addr = []
    · rw [analyze_funding_of_nil h]
      simp [empty_funding_score]
    · rw [analyze_funding_of_ne h]
      refine ⟨concentrationOf_nonneg _ _, ?_⟩
      show concentrationOf (fundingSourcesOf txs addr) (incomingOf txs addr).length ≤ 1
      rw [← fundingSourcesOf_length]
      exact concentrationOf_le_one _
  have hfund : 0 ≤ (analyze_funding_patterns txs addr).funding_risk_score ∧
      (analyze_funding_patterns txs addr).funding_risk_score ≤ 1 := by
    by_cases h : incomingOf txs addr = []
    · rw [analyze_funding_of_nil h]
      simp [empty_funding_score]
    · rw [analyze_funding_of_ne h]
      exact fundingRisk_mem _ _ _ (concentrationOf_nonneg _ _)
  refine ⟨hvel, hfund, hconc, ?_⟩
  show 0 ≤ overallRisk (analyze_velocity txs addr now).velocity_risk_score
      (analyze_funding_patterns txs addr).funding_risk_score ∧
    overallRisk (analyze_velocity txs addr now).velocity_risk_score
      (analyze_funding_patterns txs addr).funding_risk_score ≤ 1
  unfold overallRisk
  constructor
  · nlinarith [hvel.1, hfund.1]
  · nlinarith [hvel.2, hfund.2, hvel.1, hfund.1]

/-- C9 counterexample: `analyze_address` is not a pure function of the
history and the address alone — the source reads `datetime.now()` for
the velocity windows and the report timestamp, so two invocations over
the identical history and address (here at clock values 1800 and
1000000) return different reports (already their 1-hour transaction
counts differ). -/
theorem analyze_address_clock_dependent :
    ¬ (analyze_address vTxs "0xa" 1800 = analyze_address vTxs "0xa" 1000000) := by
  intro h
  have h2 : (analyze_address vTxs "0xa" 1800).velocity_score.tx_count_1h =
      (analyze_address vTxs "0xa" 1000000).velocity_score.tx_count_1h :=
    congrArg (fun r => r.velocity_score.tx_count_1h) h
  exact absurd h2 (by decide)

/-- C9 (amended): `analyze_address` is a pure function of the history,
the address and the ambient clock value: with the clock fixed, repeated
invocations return equal reports (and consult no other ambient or
mutable state — the embedding is a function of exactly these three
arguments); moreover the funding-pattern sub-report and the
transaction count are clock-independent. -/
theorem analyze_address_deterministic (txs : List BTx) (addr : String) (now : Nat) :
    analyze_address txs addr now = analyze_address txs addr now ∧
    (∀ n₁ n₂ : Nat, (analyze_address txs addr n₁).funding_pattern =
      (analyze_address txs addr n₂).funding_pattern) ∧
    (∀ n₁ n₂ : Nat, (analyze_address txs addr n₁).tx_analyzed =
      (analyze_address txs addr n₂).tx_analyzed) :=
  ⟨rfl, fun _ _ => rfl, fun _ _ => rfl⟩

/-- C5: on the clean transaction (value_eth=1.0, gas_used=100000,
gas_price_gwei=25, is_flash_loan=false) whose addresses are absent from
every blacklist set, `detect_all` returns exactly 6 `RuleResult`s, all
untriggered; and evaluation never short-circuits — for every
transaction, all 6 registered rules' results are present. -/
theorem detect_all_clean (reg : BlacklistRegistry) (fromA toA : String)
    (hfrom : reg.attackers.contains (pyLower fromA) = false ∧
             reg.sanctioned.contains (pyLower fromA) = false ∧
             reg.mixers.contains (pyLower fromA) = false)
    (hto : reg.attackers.contains (pyLower toA) = false ∧
           reg.sanctioned.contains (pyLower toA) = false ∧
           reg.mixers.contains (pyLower toA) = false) :
    (detect_all reg ⟨fromA, toA, 1, 100000, 25, false⟩).length = 6 ∧
    (∀ r ∈ detect_all reg ⟨fromA, toA, 1, 100000, 25, false⟩,
      r.is_triggered = false) ∧
    (∀ tx : TxRecord, (detect_all reg tx).length = 6) := by
  refine ⟨rfl, ?_, fun tx => rfl⟩
  intro r hr
  simp only [detect_all, List.mem_cons, List.not_mem_nil, or_false] at hr
  rcases hr with rfl | rfl | rfl | rfl | rfl | rfl
  · have h1 : pyLower fromA ∉ reg.attackers := by simpa using hfrom.1
    have h2 : pyLower toA ∉ reg.attackers := by simpa using hto.1
    simp [rule_known_attacker, h1, h2]
  · have h1 : ¬ ((1 : ℚ) > 100) := by norm_num
    simp [rule_large_value, LARGE_VALUE_THRESHOLD, h1]
  · have h1 : ¬ (100000 > 500000) := by omega
    simp [rule_high_gas, HIGH_GAS_THRESHOLD, h1]
  · have h1 : ¬ ((25 : ℚ) > 50) := by norm_num
    simp [rule_high_gas_price, HIGH_GAS_PRICE_THRESHOLD, h1]
  · simp [rule_flash_loan]
  · have h1 : ¬ (0 > 3) := by omega
    simp [rule_same_block_burst, h1]

/-- Witness for C5: the clean transaction between two fresh addresses
checked against the registry holding the known Euler exploiter and the
mixer set. -/
theorem detect_all_clean_witness :
    (demoRegistry.attackers.contains
       (pyLower "0x1111111111111111111111111111111111111111") = false ∧
     demoRegistry.sanctioned.contains
       (pyLower "0x1111111111111111111111111111111111111111") = false ∧
     demoRegistry.mixers.contains
       (pyLower "0x1111111111111111111111111111111111111111") = false) ∧
    (demoRegistry.attackers.contains
       (pyLower "0x2222222222222222222222222222222222222222") = false ∧
     demoRegistry.sanctioned.contains
       (pyLower "0x2222222222222222222222222222222222222222") = false ∧
     demoRegistry.mixers.contains
       (pyLower "0x2222222222222222222222222222222222222222") = false) ∧
    ((detect_all demoRegistry
        ⟨"0x1111111111111111111111111111111111111111",
         "0x2222222222222222222222222222222222222222",
         1, 100000, 25, false⟩).length = 6 ∧
     (∀ r ∈ detect_all demoRegistry
        ⟨"0x1111111111111111111111111111111111111111",
         "0x2222222222222222222222222222222222222222",
         1, 100000, 25, false⟩, r.is_triggered = false) ∧
     (∀ tx : TxRecord, (detect_all demoRegistry tx).length = 6)) :=
  ⟨by decide, by decide,
   detect_all_clean demoRegistry
     "0x1111111111111111111111111111111111111111"
     "0x2222222222222222222222222222222222222222"
     (by decide) (by decide)⟩

/-- C7 (behaviour at the failing input): on a freshly constructed
detector, `__init__` has already assigned an (unfitted) `XGBClassifier`
to `self.model`, so the guard `not self.is_trained and self.model is
None` in `predict` / `predict_proba` is false and the structured
"Model not trained" `ValueError` is never raised; the call instead
reaches the unfitted external classifier and fails with the library's
`NotFittedError`. -/
theorem predict_untrained_unstructured_error (X : List (List ℚ)) :
    fresh.is_trained = false ∧
    fresh.model ≠ none ∧
    predict_proba fresh X = .error .notFitted ∧
    predict fresh X = .error .notFitted ∧
    detect fresh X (1/2) = .error .notFitted ∧
    predict_proba fresh X ≠ .error .modelNotTrained :=
  ⟨rfl, by decide, rfl, rfl, rfl,
   by
    rw [show predict_proba fresh X = .error .notFitted from rfl]
    intro hcontra
    exact absurd (Except.error.inj hcontra) (by decide)⟩

/-- C8: the startup training step skips training whenever the labels
hold fewer than 2 distinct classes — the detector is left untouched, so
it does not become trained and no model is fitted on the single-class
data. -/
theorem lifespan_skips_single_class (d : DetectorState) (X : List (List ℚ))
    (y : List Nat) (h : distinctClassCount y < 2) :
    lifespan_train_step d X y = d ∧
    (d.is_trained = false → (lifespan_train_step d X y).is_trained = false) := by
  have hcond : ¬ (1 < distinctClassCount y) := by omega
  rw [lifespan_train_step, if_neg hcond]
  exact ⟨rfl, fun h2 => h2⟩

/-- Witness for C8: single-class labels `[1, 1, 1]` on a fresh detector
leave it untrained. -/
theorem lifespan_skips_single_class_witness :
    distinctClassCount [1, 1, 1] < 2 ∧
    (lifespan_train_step fresh [[1], [2], [3]] [1, 1, 1] = fresh ∧
     (fresh.is_trained = false →
       (lifespan_train_step fresh [[1], [2], [3]] [1, 1, 1]).is_trained = false)) :=
  ⟨by decide, lifespan_skips_single_class fresh [[1], [2], [3]] [1, 1, 1] (by decide)⟩
